import Mathlib

/-!
Verification of the Fire_Data_Repo analytics dashboard (src/app.py) against its
natural-language specification.

The development shallowly embeds the data-shaping core of the repository:

* the two classification helpers `group_buildings` and `group_locations`
  defined inside `process_location_data` (src/app.py lines 126-140);
* the `process_location_data` pandas pipeline (filter, groupby-sum, per-group
  percentage with rounding to one decimal, pivot, drop of the
  "Other Room/External" row, melt), src/app.py lines 142-174;
* the SQL queries `sql_locations` and `sql_human_cost` as list-based
  relational algebra over an explicit star-schema snapshot;
* the data-access gateway `load_data` (st.cache_data memoization and the
  scoped duckdb connection), modelled from the specification where the
  behaviour lives in external libraries;
* a small dynamically-typed value model for the claims about how the
  classifiers behave on non-string (null) column values.

Incident counts are naturals, percentages are rationals, and pandas/numpy
rounding is embedded exactly as round-half-to-even at the requested number
of decimals (the semantics of numpy.round, which pandas round delegates to).
Pandas sorts group keys; none of the properties below depend on row order,
so distinct keys are taken with List.dedup instead of carrying the sort.
-/

namespace FireData

/-- Model of Python str.startswith over the character sequence of a string. -/
def str_startswith (s p : String) : Bool := p.data.isPrefixOf s.data

/-- Embedding of group_buildings (src/app.py lines 126-131). -/
def group_buildings (dwelling_type : String) : String :=
  if dwelling_type = "House - single occupancy" then "House"
  else if str_startswith dwelling_type ("Purpose Built") then "Purpose Built Flats"
  else "Other"

/-- Embedding of group_locations (src/app.py lines 133-140); Python tuple
membership tests become disjunctions of equalities. -/
def group_locations (location : String) : String :=
  if location = "Kitchen" then "Kitchen"
  else if location = "Living Room" ∨ location = "Bedroom/ Bedsitting Room" then
    "Living/Bedroom"
  else if location = "Refuse Store" ∨
      location = "Corridor/ Hall/ Open Plan Area/ Reception Area" ∨
      location = "Stairs/ Under stairs (enclosed area)" then
    "Communal/Escape Routes"
  else "Other Room/External"

/-- Round-half-to-even of a rational to an integer: the semantics of
numpy rint, used by numpy.round and hence by pandas Series.round. -/
def rhe (x : ℚ) : ℤ :=
  if x - (⌊x⌋ : ℚ) < 1/2 then ⌊x⌋
  else if 1/2 < x - (⌊x⌋ : ℚ) then ⌊x⌋ + 1
  else if ⌊x⌋ % 2 = 0 then ⌊x⌋ else ⌊x⌋ + 1

/-- Rounding to one decimal place, as pandas round(1). -/
def round1 (x : ℚ) : ℚ := ((rhe (10 * x) : ℤ) : ℚ) / 10

/-- Rounding to two decimal places, as SQL ROUND(expr, 2) in the queries. -/
def round2 (x : ℚ) : ℚ := ((rhe (100 * x) : ℤ) : ℚ) / 100

/-- Row of the sql_locations query result: the input table of
process_location_data. -/
structure RawRow where
  dwelling_type : String
  fire_start_location : String
  number_of_incidents : ℕ
deriving DecidableEq

/-- Row after the two apply steps added the building_group and
location_group columns (the columns the rest of the pipeline uses). -/
structure ClassRow where
  building_group : String
  location_group : String
  number_of_incidents : ℕ
deriving DecidableEq

/-- The two apply steps of process_location_data (src/app.py lines 142-143). -/
def classifyRows (rows : List RawRow) : List ClassRow :=
  rows.map (fun r =>
    ⟨group_buildings r.dwelling_type, group_locations r.fire_start_location,
     r.number_of_incidents⟩)

/-- The isin filter keeping only the House and Purpose Built Flats groups
(src/app.py lines 145-147). -/
def filteredRows (rows : List ClassRow) : List ClassRow :=
  rows.filter (fun r =>
    decide (r.building_group = "House" ∨ r.building_group = "Purpose Built Flats"))

/-- Distinct (building_group, location_group) keys of the groupby
(src/app.py lines 149-151). -/
def aggKeys (rows : List ClassRow) : List (String × String) :=
  ((filteredRows rows).map (fun r => (r.building_group, r.location_group))).dedup

/-- Summed incident count of one groupby key. -/
def keyCount (rows : List ClassRow) (k : String × String) : ℕ :=
  (((filteredRows rows).filter
      (fun r => decide ((r.building_group, r.location_group) = k))).map
    (fun r => r.number_of_incidents)).sum

/-- The df_grouped_counts table: one row per distinct
(building_group, location_group) key with the summed incident count. -/
def aggregated (rows : List ClassRow) : List (String × String × ℕ) :=
  (aggKeys rows).map (fun k => (k.1, k.2, keyCount rows k))

/-- The group_totals series: total incident count per building group,
computed from the aggregated table (src/app.py line 153). -/
def groupTotal (rows : List ClassRow) (bg : String) : ℕ :=
  (((aggregated rows).filter (fun e => decide (e.1 = bg))).map
    (fun e => e.2.2)).sum

/-- The percentage column: 100 * count / group total, rounded to one
decimal (src/app.py lines 155-157). -/
def pct (c total : ℕ) : ℚ := round1 ((100 * c : ℚ) / (total : ℚ))

/-- The aggregated table with its percentage column
(building_group, location_group, percentage). -/
def withPct (rows : List ClassRow) : List (String × String × ℚ) :=
  (aggregated rows).map (fun e => (e.1, e.2.1, pct e.2.2 (groupTotal rows e.1)))

/-- Index of the pivoted table: the distinct location groups
(src/app.py lines 159-163). -/
def pivotIndex (rows : List ClassRow) : List String :=
  ((aggregated rows).map (fun e => e.2.1)).dedup

/-- Columns of the pivoted table: the distinct building groups. -/
def pivotColumns (rows : List ClassRow) : List String :=
  ((aggregated rows).map (fun e => e.1)).dedup

/-- Cell of the pivoted table: the percentage for the
(location group, building group) pair, 0 when absent (the fillna(0)). -/
def pivotCell (rows : List ClassRow) (lg bg : String) : ℚ :=
  match (withPct rows).find? (fun e => decide (e.1 = bg ∧ e.2.1 = lg)) with
  | some e => e.2.2
  | none => 0

/-- Index of the pivoted table after dropping the Other Room/External row,
a silent no-op when absent (src/app.py line 165). -/
def droppedIndex (rows : List ClassRow) : List String :=
  (pivotIndex rows).filter (fun lg => decide (lg ≠ "Other Room/External"))

/-- The melt back to long form for charting (src/app.py lines 168-172):
one row (location_group, building_group, percentage) per column and
post-drop index entry. -/
def longForm (rows : List ClassRow) : List (String × String × ℚ) :=
  (pivotColumns rows).flatMap (fun bg =>
    (droppedIndex rows).map (fun lg => (lg, bg, pivotCell rows lg bg)))

/-- Sum of the percentage column over one building group before the drop
step: the quantity the spec's sums-to-100 invariant is about. -/
def sumPctBeforeDrop (rows : List ClassRow) (bg : String) : ℚ :=
  (((withPct rows).filter (fun e => decide (e.1 = bg))).map
    (fun e => e.2.2)).sum

/-- The pair process_location_data returns: the long-form chart table and
the pivoted table (represented by its post-drop index and its columns;
cells are given by pivotCell). -/
def process_location_data (rows : List RawRow) :
    List (String × String × ℚ) × List String × List String :=
  (longForm (classifyRows rows), droppedIndex (classifyRows rows),
   pivotColumns (classifyRows rows))

/-- The four values group_locations can produce. -/
def locationGroupNames : List String :=
  ["Kitchen", "Living/Bedroom", "Communal/Escape Routes", "Other Room/External"]

/-- Input exhibiting four exact rounding ties in one building group:
percentages 12.25, 12.25, 12.25 and 63.25 all round down (half-to-even),
so the rounded percentages sum to 99.8. -/
def c3CexRows : List RawRow :=
  [⟨"House - single occupancy", "Kitchen", 1225⟩,
   ⟨"House - single occupancy", "Living Room", 1225⟩,
   ⟨"House - single occupancy", "Refuse Store", 1225⟩,
   ⟨"House - single occupancy", "Garden", 6325⟩]

/-- The spec example input read literally: bare labels as dwelling types. -/
def c4LiteralRows : List RawRow :=
  [⟨"House", "Kitchen", 100⟩,
   ⟨"House", "Living Room", 50⟩,
   ⟨"Purpose Built Flats", "Kitchen", 30⟩,
   ⟨"Purpose Built Flats", "Refuse Store", 20⟩]

/-- The spec example input with a dwelling type that actually classifies to
the House building group. -/
def c4Rows : List RawRow :=
  [⟨"House - single occupancy", "Kitchen", 100⟩,
   ⟨"House - single occupancy", "Living Room", 50⟩,
   ⟨"Purpose Built Flats", "Kitchen", 30⟩,
   ⟨"Purpose Built Flats", "Refuse Store", 20⟩]

/-- Fact-table row as used by the sql_locations query. -/
structure LocFactRow where
  fact_dwelling_fire_id : ℕ
  dwelling_key : ℕ
  location_key : ℕ
deriving DecidableEq

/-- Row of dim_dwelling; a null dwelling_type is Option.none. -/
structure DimDwellingRow where
  dwelling_key : ℕ
  dwelling_type : Option String
deriving DecidableEq

/-- Row of dim_location; a null fire_start_location is Option.none. -/
structure DimLocationRow where
  location_key : ℕ
  fire_start_location : Option String
deriving DecidableEq

/-- Star-schema snapshot seen by the sql_locations query. -/
structure LocDB where
  fact_dwelling_fire : List LocFactRow
  dim_dwelling : List DimDwellingRow
  dim_location : List DimLocationRow

/-- Inner joins of sql_locations (src/app.py lines 55-60). -/
def locJoined (db : LocDB) :
    List (LocFactRow × DimDwellingRow × DimLocationRow) :=
  db.fact_dwelling_fire.flatMap (fun f =>
    (db.dim_dwelling.filter
        (fun d => decide (d.dwelling_key = f.dwelling_key))).flatMap (fun d =>
      (db.dim_location.filter
          (fun dl => decide (dl.location_key = f.location_key))).map
        (fun dl => (f, d, dl))))

/-- WHERE clause of sql_locations (src/app.py lines 61-64): location not
null and not the Not known label, dwelling type not null. -/
def locFiltered (db : LocDB) :
    List (LocFactRow × DimDwellingRow × DimLocationRow) :=
  (locJoined db).filter (fun r =>
    decide (r.2.2.fire_start_location ≠ none ∧
      r.2.2.fire_start_location ≠ some "Not known" ∧
      r.2.1.dwelling_type ≠ none))

/-- GROUP BY key of sql_locations; the filters guarantee both options are
populated, so getD never takes its default. -/
def locKey (r : LocFactRow × DimDwellingRow × DimLocationRow) :
    String × String :=
  (r.2.1.dwelling_type.getD "", r.2.2.fire_start_location.getD "")

/-- Distinct GROUP BY keys of sql_locations. -/
def locKeys (db : LocDB) : List (String × String) :=
  ((locFiltered db).map locKey).dedup

/-- COUNT(f.fact_dwelling_fire_id) per group: the fact id is never null,
so this is the group's row count. -/
def locCount (db : LocDB) (k : String × String) : ℕ :=
  ((locFiltered db).filter (fun r => decide (locKey r = k))).length

/-- The sql_locations result table. -/
def sql_locations_result (db : LocDB) : List RawRow :=
  (locKeys db).map (fun k => ⟨k.1, k.2, locCount db k⟩)

/-- A Python value held by a dataframe column in the model: a string or
the null None. -/
inductive PyVal where
  | str (s : String)
  | none
deriving DecidableEq

/-- Whether the dynamic value is a string. -/
def PyVal.isStr : PyVal → Bool
  | .str _ => true
  | .none => false

/-- Errors the classifiers can raise dynamically. -/
inductive PyErr where
  | attributeError
deriving DecidableEq

/-- Python == between a dynamic value and a string literal: never raises,
None compares unequal to every string. -/
def py_eq_str : PyVal → String → Bool
  | .str s, t => decide (s = t)
  | .none, _ => false

/-- Python v.startswith(p): attribute lookup on None raises AttributeError. -/
def py_startswith : PyVal → String → Except PyErr Bool
  | .str s, p => .ok (str_startswith s p)
  | .none, _ => .error .attributeError

/-- Python membership of a dynamic value in a tuple of strings: a chain of
== tests, never raising. -/
def py_in (v : PyVal) (l : List String) : Bool := l.any (fun t => py_eq_str v t)

/-- group_buildings on a dynamic value: the equality test tolerates None
but the startswith attribute access raises on it. -/
def group_buildings_py (v : PyVal) : Except PyErr String :=
  if py_eq_str v ("House - single occupancy") then .ok "House"
  else
    match py_startswith v ("Purpose Built") with
    | .error e => .error e
    | .ok true => .ok "Purpose Built Flats"
    | .ok false => .ok "Other"

/-- group_locations on a dynamic value: only == and tuple membership are
used, so no value ever raises; everything unrecognized, including None,
falls through to Other Room/External. -/
def group_locations_py (v : PyVal) : Except PyErr String :=
  if py_eq_str v ("Kitchen") then .ok "Kitchen"
  else if py_in v ["Living Room", "Bedroom/ Bedsitting Room"] then
    .ok "Living/Bedroom"
  else if py_in v ["Refuse Store", "Corridor/ Hall/ Open Plan Area/ Reception Area",
      "Stairs/ Under stairs (enclosed area)"] then
    .ok "Communal/Escape Routes"
  else .ok "Other Room/External"

/-- Input row of process_location_data with dynamically-typed columns. -/
structure PyRow where
  dwelling_type : PyVal
  fire_start_location : PyVal
  number_of_incidents : ℕ
deriving DecidableEq

/-- The transform on dynamically-typed input: the two column-wise apply
steps (which can raise), then the pure pipeline on the classified rows. -/
def transform_py (rows : List PyRow) :
    Except PyErr (List (String × String × ℚ) × List String × List String) := do
  let bgs ← rows.mapM (fun r => group_buildings_py r.dwelling_type)
  let lgs ← rows.mapM (fun r => group_locations_py r.fire_start_location)
  let classified := (rows.zip (bgs.zip lgs)).map
    (fun p => ClassRow.mk p.2.1 p.2.2 p.1.number_of_incidents)
  pure (longForm classified, droppedIndex classified, pivotColumns classified)

/-- The sql_locations result with its values as dynamic Python values:
both columns are built from post-filter non-null dimension labels. -/
def sql_locations_result_py (db : LocDB) : List PyRow :=
  (locKeys db).map (fun k => ⟨.str k.1, .str k.2, locCount db k⟩)

/-- A one-row table whose location is null but whose dwelling type is a
string: the transform does not crash on it. -/
def c10CexRows : List PyRow :=
  [⟨.str "House - single occupancy", .none, 7⟩]

/-- Modelled from the spec: the Data Access Gateway's memoization is the
st.cache_data decorator on load_data, an external library; per the spec it
is a process-wide cache keyed by exact query text, populated
insert-if-absent. The state also logs every execution against the store. -/
structure GatewayState (α : Type) where
  cache : List (String × α)
  storeExecs : List String

/-- Lookup of a query text in the memoization cache. -/
def cacheLookup {α : Type} (cache : List (String × α)) (q : String) : Option α :=
  ((cache.find? (fun e => decide (e.1 = q))).map (fun e => e.2))

/-- Modelled from the spec: one gateway call — serve the cached table for
the exact query text when present, otherwise execute against the store,
cache the result, and log the execution. -/
def gateway_execute {α : Type} (store : String → α) (s : GatewayState α)
    (q : String) : α × GatewayState α :=
  match cacheLookup s.cache q with
  | some t => (t, s)
  | Option.none => (store q, ⟨(q, store q) :: s.cache, s.storeExecs ++ [q]⟩)

/-- Events of one load_data call on its duckdb connection. -/
inductive ConnEvent where
  | opened
  | executed (q : String)
  | closed
deriving DecidableEq

/-- Modelled from the spec where it depends on duckdb: load_data's body
(src/app.py lines 20-24) opens a scoped connection in a with block,
executes the query once, and returns the materialized table; opening and
execution may each fail with a DataUnavailable-style error, which the with
block propagates unchanged after closing any opened connection. -/
def load_data_conn {α : Type} (openResult : Except String Unit)
    (run : String → Except String α) (q : String) :
    Except String α × List ConnEvent :=
  match openResult with
  | .error e => (.error e, [])
  | .ok _ =>
    match run q with
    | .ok t => (.ok t, [.opened, .executed q, .closed])
    | .error e => (.error e, [.opened, .executed q, .closed])

/-- Fact-table row as used by the sql_human_cost query. -/
structure HCFactRow where
  fact_dwelling_fire_id : ℕ
  ignition_key : ℕ
  spread_key : ℕ
  fatality_casualty_flag : ℕ
  rescues : Option ℕ
deriving DecidableEq

/-- Row of dim_ignition; a null cause_of_fire is Option.none. -/
structure DimIgnitionRow where
  ignition_key : ℕ
  cause_of_fire : Option String
deriving DecidableEq

/-- Row of dim_spread; a null spread_rank is Option.none. -/
structure DimSpreadRow where
  spread_key : ℕ
  spread_rank : Option ℕ
deriving DecidableEq

/-- Star-schema snapshot seen by the sql_human_cost query. -/
structure HCDB where
  fact_dwelling_fire : List HCFactRow
  dim_ignition : List DimIgnitionRow
  dim_spread : List DimSpreadRow

/-- Inner joins of sql_human_cost (src/app.py lines 79-84). -/
def hcJoined (db : HCDB) :
    List (HCFactRow × DimIgnitionRow × DimSpreadRow) :=
  db.fact_dwelling_fire.flatMap (fun f =>
    (db.dim_ignition.filter
        (fun di => decide (di.ignition_key = f.ignition_key))).flatMap (fun di =>
      (db.dim_spread.filter
          (fun ds => decide (ds.spread_key = f.spread_key))).map
        (fun ds => (f, di, ds))))

/-- WHERE clause of sql_human_cost (src/app.py lines 85-89): these are the
qualifying rows of a cause. -/
def hcFiltered (db : HCDB) :
    List (HCFactRow × DimIgnitionRow × DimSpreadRow) :=
  (hcJoined db).filter (fun r =>
    decide (r.2.2.spread_rank ≠ none ∧ r.1.rescues ≠ none ∧
      r.2.1.cause_of_fire ≠ none ∧ r.2.1.cause_of_fire ≠ some "Not known"))

/-- GROUP BY key of sql_human_cost; the filter guarantees the cause is
populated, so getD never takes its default. -/
def hcCause (r : HCFactRow × DimIgnitionRow × DimSpreadRow) : String :=
  r.2.1.cause_of_fire.getD ""

/-- Distinct causes among the qualifying rows. -/
def hcCauses (db : HCDB) : List String := ((hcFiltered db).map hcCause).dedup

/-- The qualifying rows of one cause. -/
def hcGroup (db : HCDB) (c : String) :
    List (HCFactRow × DimIgnitionRow × DimSpreadRow) :=
  (hcFiltered db).filter (fun r => decide (hcCause r = c))

/-- COUNT(f.fact_dwelling_fire_id) for one cause: the fact id is never
null, so this is the group's row count. -/
def hcCount (db : HCDB) (c : String) : ℕ := (hcGroup db c).length

/-- SQL AVG over a list of rationals. -/
def listAvg (l : List ℚ) : ℚ := l.sum / (l.length : ℚ)

/-- One output row of sql_human_cost. -/
structure HCOutRow where
  cause_of_fire : String
  number_of_incidents : ℕ
  avg_spread_rank : ℚ
  total_incidents_with_casualties : ℕ
  pct_chance_of_casualty : ℚ
  avg_rescues_per_incident : ℚ

/-- The sql_human_cost result table: one row per cause whose qualifying
count exceeds 100 (the HAVING clause, src/app.py lines 92-94), with the
aggregates of the SELECT list. -/
def sql_human_cost_result (db : HCDB) : List HCOutRow :=
  ((hcCauses db).filter (fun c => decide (100 < hcCount db c))).map (fun c =>
    { cause_of_fire := c
      number_of_incidents := hcCount db c
      avg_spread_rank :=
        round2 (listAvg ((hcGroup db c).map
          (fun r => ((r.2.2.spread_rank.getD 0 : ℕ) : ℚ))))
      total_incidents_with_casualties :=
        ((hcGroup db c).map (fun r => r.1.fatality_casualty_flag)).sum
      pct_chance_of_casualty :=
        round2 (listAvg ((hcGroup db c).map
          (fun r => (r.1.fatality_casualty_flag : ℚ))) * 100)
      avg_rescues_per_incident :=
        round2 (listAvg ((hcGroup db c).map
          (fun r => ((r.1.rescues.getD 0 : ℕ) : ℚ)))) })

/-- Snapshot with one cause having 101 qualifying rows and another 99. -/
def hcExampleDB : HCDB where
  fact_dwelling_fire :=
    List.replicate 101 ⟨1, 1, 1, 0, some 0⟩ ++ List.replicate 99 ⟨2, 2, 1, 0, some 0⟩
  dim_ignition := [⟨1, some "Cooking"⟩, ⟨2, some "Arson"⟩]
  dim_spread := [⟨1, some 1⟩]

end FireData

open FireData

theorem abs_rhe_sub_le (x : ℚ) : |((rhe x : ℤ) : ℚ) - x| ≤ 1/2 := by
  have h0 : (⌊x⌋ : ℚ) ≤ x := Int.floor_le x
  have h1 : x < (⌊x⌋ : ℚ) + 1 := Int.lt_floor_add_one x
  unfold rhe
  split_ifs with ha hb hc <;> push_cast <;> rw [abs_le] <;> constructor <;> linarith

theorem abs_round1_sub_le (x : ℚ) : |round1 x - x| ≤ 1/20 := by
  have h := abs_rhe_sub_le (10 * x)
  unfold round1
  rw [show ((rhe (10 * x) : ℤ) : ℚ) / 10 - x = (((rhe (10 * x) : ℤ) : ℚ) - 10 * x) / 10
    by ring, abs_div, show |(10 : ℚ)| = 10 by norm_num]
  linarith

theorem rhe_eq_floor (x : ℚ) (h : x - (⌊x⌋ : ℚ) < 1/2) : rhe x = ⌊x⌋ := by
  unfold rhe
  rw [if_pos h]

theorem rhe_eq_floor_add_one (x : ℚ) (h : 1/2 < x - (⌊x⌋ : ℚ)) : rhe x = ⌊x⌋ + 1 := by
  unfold rhe
  rw [if_neg (by linarith), if_pos h]

theorem rhe_tie_even (x : ℚ) (h : x - (⌊x⌋ : ℚ) = 1/2) (he : ⌊x⌋ % 2 = 0) :
    rhe x = ⌊x⌋ := by
  unfold rhe
  rw [if_neg (by linarith), if_neg (by linarith), if_pos he]

theorem pct_eval_100_150 : pct 100 150 = 667/10 := by
  have hx : ((100 : ℚ) * ((100 : ℕ) : ℚ)) / ((150 : ℕ) : ℚ) = 200/3 := by norm_num
  have hfl : ⌊(10 : ℚ) * (200/3)⌋ = 666 := by norm_num
  unfold pct round1
  rw [hx, rhe_eq_floor_add_one]
  · rw [hfl]
    norm_num
  · rw [hfl]
    norm_num

theorem pct_eval_50_150 : pct 50 150 = 333/10 := by
  have hx : ((100 : ℚ) * ((50 : ℕ) : ℚ)) / ((150 : ℕ) : ℚ) = 100/3 := by norm_num
  have hfl : ⌊(10 : ℚ) * (100/3)⌋ = 333 := by norm_num
  unfold pct round1
  rw [hx, rhe_eq_floor]
  · rw [hfl]
    norm_num
  · rw [hfl]
    norm_num

theorem pct_eval_30_50 : pct 30 50 = 60 := by
  have hx : ((100 : ℚ) * ((30 : ℕ) : ℚ)) / ((50 : ℕ) : ℚ) = 60 := by norm_num
  have hfl : ⌊(10 : ℚ) * (60 : ℚ)⌋ = 600 := by norm_num
  unfold pct round1
  rw [hx, rhe_eq_floor]
  · rw [hfl]
    norm_num
  · rw [hfl]
    norm_num

theorem pct_eval_20_50 : pct 20 50 = 40 := by
  have hx : ((100 : ℚ) * ((20 : ℕ) : ℚ)) / ((50 : ℕ) : ℚ) = 40 := by norm_num
  have hfl : ⌊(10 : ℚ) * (40 : ℚ)⌋ = 400 := by norm_num
  unfold pct round1
  rw [hx, rhe_eq_floor]
  · rw [hfl]
    norm_num
  · rw [hfl]
    norm_num

theorem pct_eval_1225_10000 : pct 1225 10000 = 61/5 := by
  have hx : ((100 : ℚ) * ((1225 : ℕ) : ℚ)) / ((10000 : ℕ) : ℚ) = 49/4 := by norm_num
  have hfl : ⌊(10 : ℚ) * (49/4)⌋ = 122 := by norm_num
  unfold pct round1
  rw [hx, rhe_tie_even]
  · rw [hfl]
    norm_num
  · rw [hfl]
    norm_num
  · rw [hfl]
    decide

theorem pct_eval_6325_10000 : pct 6325 10000 = 316/5 := by
  have hx : ((100 : ℚ) * ((6325 : ℕ) : ℚ)) / ((10000 : ℕ) : ℚ) = 253/4 := by norm_num
  have hfl : ⌊(10 : ℚ) * (253/4)⌋ = 632 := by norm_num
  unfold pct round1
  rw [hx, rhe_tie_even]
  · rw [hfl]
    norm_num
  · rw [hfl]
    norm_num
  · rw [hfl]
    decide

/-- C1: the building-group classification returns "House" exactly on
"House - single occupancy", "Purpose Built Flats" on every string starting
with "Purpose Built", and "Other" on every other string. -/
theorem c1_group_buildings_spec (s : String) :
    group_buildings ("House - single occupancy") = "House"
    ∧ (str_startswith s ("Purpose Built") = true →
        group_buildings s = "Purpose Built Flats")
    ∧ (s ≠ "House - single occupancy" → str_startswith s ("Purpose Built") = false →
        group_buildings s = "Other") := by
  refine ⟨rfl, ?_, ?_⟩
  · intro h
    have hne : s ≠ "House - single occupancy" := by
      rintro rfl
      exact absurd h (by decide)
    unfold group_buildings
    rw [if_neg hne, if_pos h]
  · intro hne hpb
    unfold group_buildings
    rw [if_neg hne, hpb]
    simp

/-- Witness for C1 at concrete dwelling-type strings. -/
theorem c1_group_buildings_spec_witness :
    group_buildings ("Purpose Built Flats - 4 to 9 storeys") = "Purpose Built Flats"
    ∧ group_buildings ("Bungalow - single occupancy") = "Other" :=
  ⟨(c1_group_buildings_spec ("Purpose Built Flats - 4 to 9 storeys")).2.1 (by decide),
   (c1_group_buildings_spec ("Bungalow - single occupancy")).2.2 (by decide) (by decide)⟩

/-- C2: the location-group classification sends "Kitchen" to "Kitchen",
the living-room/bedroom strings to "Living/Bedroom", the three communal
strings to "Communal/Escape Routes", and every other string to
"Other Room/External". -/
theorem c2_group_locations_spec (s : String) :
    group_locations ("Kitchen") = "Kitchen"
    ∧ (s = "Living Room" ∨ s = "Bedroom/ Bedsitting Room" →
        group_locations s = "Living/Bedroom")
    ∧ (s = "Refuse Store" ∨ s = "Corridor/ Hall/ Open Plan Area/ Reception Area" ∨
        s = "Stairs/ Under stairs (enclosed area)" →
        group_locations s = "Communal/Escape Routes")
    ∧ (s ≠ "Kitchen" →
        ¬(s = "Living Room" ∨ s = "Bedroom/ Bedsitting Room") →
        ¬(s = "Refuse Store" ∨ s = "Corridor/ Hall/ Open Plan Area/ Reception Area" ∨
          s = "Stairs/ Under stairs (enclosed area)") →
        group_locations s = "Other Room/External") := by
  refine ⟨rfl, ?_, ?_, ?_⟩
  · rintro (rfl | rfl) <;> decide
  · rintro (rfl | rfl | rfl) <;> decide
  · intro h1 h2 h3
    unfold group_locations
    rw [if_neg h1, if_neg h2, if_neg h3]

/-- Witness for C2 at concrete location strings. -/
theorem c2_group_locations_spec_witness :
    group_locations ("Bedroom/ Bedsitting Room") = "Living/Bedroom"
    ∧ group_locations ("Refuse Store") = "Communal/Escape Routes"
    ∧ group_locations ("Garden") = "Other Room/External" :=
  ⟨(c2_group_locations_spec ("Bedroom/ Bedsitting Room")).2.1 (by decide),
   (c2_group_locations_spec ("Refuse Store")).2.2.1 (by decide),
   (c2_group_locations_spec ("Garden")).2.2.2 (by decide) (by decide) (by decide)⟩

/-- C6: on the empty input table the transform returns an empty long-form
table and an empty pivoted table (and, being a total function, does not
fail). -/
theorem c6_empty_input : process_location_data [] = ([], [], []) := rfl

/-- C4 counterexample: with the spec's example rows read literally, the
dwelling type "House" classifies to the Other building group and is
dropped, so the claimed building-group totals (House = 150,
Purpose Built Flats = 50) do not hold. -/
theorem c4_literal_counterexample :
    group_buildings ("House") = "Other"
    ∧ groupTotal (classifyRows c4LiteralRows) "House" = 0
    ∧ ¬(groupTotal (classifyRows c4LiteralRows) "House" = 150
        ∧ groupTotal (classifyRows c4LiteralRows) "Purpose Built Flats" = 50) := by
  decide

/-- C4 amended: with the dwelling-type string "House - single occupancy"
in place of the bare label "House", the transform yields the claimed
totals and percentages. -/
theorem c4_example_amended :
    groupTotal (classifyRows c4Rows) "House" = 150
    ∧ groupTotal (classifyRows c4Rows) "Purpose Built Flats" = 50
    ∧ pivotCell (classifyRows c4Rows) "Kitchen" "House" = 667/10
    ∧ pivotCell (classifyRows c4Rows) "Living/Bedroom" "House" = 333/10
    ∧ pivotCell (classifyRows c4Rows) "Kitchen" "Purpose Built Flats" = 60
    ∧ pivotCell (classifyRows c4Rows) "Communal/Escape Routes" "Purpose Built Flats"
        = 40 := by
  have h1 : pivotCell (classifyRows c4Rows) "Kitchen" "House" = pct 100 150 := rfl
  have h2 : pivotCell (classifyRows c4Rows) "Living/Bedroom" "House" = pct 50 150 := rfl
  have h3 : pivotCell (classifyRows c4Rows) "Kitchen" "Purpose Built Flats"
      = pct 30 50 := rfl
  have h4 : pivotCell (classifyRows c4Rows) "Communal/Escape Routes" "Purpose Built Flats"
      = pct 20 50 := rfl
  exact ⟨by decide, by decide, h1.trans pct_eval_100_150, h2.trans pct_eval_50_150,
    h3.trans pct_eval_30_50, h4.trans pct_eval_20_50⟩

/-- C3 counterexample: an input meeting the claim's precondition (non-empty,
every row in the House or Purpose Built Flats group) whose House
percentages are the exact ties 12.25, 12.25, 12.25 and 63.25; half-to-even
rounding sends each tie down, the rounded percentages sum to 99.8, and
|99.8 - 100| = 0.2 exceeds the claimed 0.1 tolerance. -/
theorem c3_tie_counterexample :
    ((classifyRows c3CexRows).all (fun r =>
        r.building_group == "House" || r.building_group == "Purpose Built Flats")
      = true)
    ∧ classifyRows c3CexRows ≠ []
    ∧ sumPctBeforeDrop (classifyRows c3CexRows) "House" = 499/5
    ∧ ¬(|sumPctBeforeDrop (classifyRows c3CexRows) "House" - 100| ≤ 1/10) := by
  have hsum : sumPctBeforeDrop (classifyRows c3CexRows) "House"
      = ([pct 1225 10000, pct 1225 10000, pct 1225 10000, pct 6325 10000] : List ℚ).sum :=
    rfl
  have hval : sumPctBeforeDrop (classifyRows c3CexRows) "House" = 499/5 := by
    rw [hsum]
    simp only [pct_eval_1225_10000, pct_eval_6325_10000, List.sum_cons, List.sum_nil]
    norm_num
  refine ⟨by decide, by decide, hval, ?_⟩
  rw [hval]
  intro habs
  rw [show (499 : ℚ)/5 - 100 = -(1/5) by norm_num, abs_neg] at habs
  rw [show |(1 : ℚ)/5| = 1/5 by norm_num] at habs
  linarith

theorem sum_map_const_nat {α : Type} (l : List α) (c : ℕ) :
    (l.map (fun _ => c)).sum = l.length * c := by
  induction l with
  | nil => simp
  | cons a t ih => simp [ih, Nat.succ_mul, Nat.add_comm]

/-- C5: after the drop step the pivoted table has no Other Room/External
row; the melted long-form table has one row per (post-drop location group,
building-group column) pair, hence exactly the product as its length; and
a pair with no aggregated entry gets percentage 0 (the fillna). -/
theorem c5_pivot_drop_melt_shape (rows : List RawRow) :
    "Other Room/External" ∉ droppedIndex (classifyRows rows)
    ∧ (longForm (classifyRows rows)).length
        = (droppedIndex (classifyRows rows)).length
          * (pivotColumns (classifyRows rows)).length
    ∧ (∀ lg bg, lg ∈ droppedIndex (classifyRows rows) →
        bg ∈ pivotColumns (classifyRows rows) →
        (lg, bg, pivotCell (classifyRows rows) lg bg) ∈ longForm (classifyRows rows))
    ∧ (∀ lg bg,
        (∀ e ∈ aggregated (classifyRows rows), ¬(e.1 = bg ∧ e.2.1 = lg)) →
        pivotCell (classifyRows rows) lg bg = 0) := by
  refine ⟨?_, ?_, ?_, ?_⟩
  · intro h
    rw [droppedIndex, List.mem_filter] at h
    simp at h
  · unfold longForm
    rw [List.flatMap, List.length_flatten, List.map_map]
    have h1 : (List.length ∘ fun bg =>
        (droppedIndex (classifyRows rows)).map
          (fun lg => (lg, bg, pivotCell (classifyRows rows) lg bg)))
        = fun _ => (droppedIndex (classifyRows rows)).length := by
      funext bg
      simp
    rw [h1, sum_map_const_nat, Nat.mul_comm]
  · intro lg bg hlg hbg
    unfold longForm
    rw [List.mem_flatMap]
    exact ⟨bg, hbg, List.mem_map.mpr ⟨lg, hlg, rfl⟩⟩
  · intro lg bg h
    have hnone : (withPct (classifyRows rows)).find?
        (fun e => decide (e.1 = bg ∧ e.2.1 = lg)) = none := by
      rw [List.find?_eq_none]
      intro x hx
      rw [withPct, List.mem_map] at hx
      obtain ⟨e, he, rfl⟩ := hx
      simpa using h e he
    unfold pivotCell
    rw [hnone]

/-- Witness for C5 at the example input: the Kitchen/House cell appears in
the long-form table, and a pair absent from the aggregation has cell 0. -/
theorem c5_pivot_drop_melt_shape_witness :
    ("Kitchen", "House", pivotCell (classifyRows c4Rows) "Kitchen" "House")
      ∈ longForm (classifyRows c4Rows)
    ∧ pivotCell (classifyRows c4Rows) "Living/Bedroom" "Purpose Built Flats" = 0 :=
  ⟨(c5_pivot_drop_melt_shape c4Rows).2.2.1 "Kitchen" "House" (by decide) (by decide),
   (c5_pivot_drop_melt_shape c4Rows).2.2.2 "Living/Bedroom" "Purpose Built Flats"
     (by decide)⟩

theorem group_locations_mem_names (s : String) :
    group_locations s ∈ locationGroupNames := by
  unfold group_locations locationGroupNames
  split_ifs <;> simp

theorem list_sum_abs_sub_le {α : Type} (l : List α) (f g : α → ℚ) (c : ℚ)
    (h : ∀ a ∈ l, |f a - g a| ≤ c) :
    |(l.map f).sum - (l.map g).sum| ≤ l.length * c := by
  induction l with
  | nil => simp
  | cons a t ih =>
    simp only [List.map_cons, List.sum_cons, List.length_cons]
    have h1 := h a (List.mem_cons_self a t)
    have h2 := ih (fun x hx => h x (List.mem_cons_of_mem a hx))
    have h3 : |f a + (t.map f).sum - (g a + (t.map g).sum)|
        ≤ |f a - g a| + |(t.map f).sum - (t.map g).sum| := by
      calc |f a + (t.map f).sum - (g a + (t.map g).sum)|
          = |(f a - g a) + ((t.map f).sum - (t.map g).sum)| := by ring_nf
        _ ≤ |f a - g a| + |(t.map f).sum - (t.map g).sum| := abs_add _ _
    push_cast
    nlinarith [h1, h2, h3]

theorem nodup_snd_length_le (K : List (String × String)) (names : List String)
    (b : String) (hnd : K.Nodup) (hfst : ∀ k ∈ K, k.1 = b)
    (hsnd : ∀ k ∈ K, k.2 ∈ names) :
    K.length ≤ names.length := by
  have hmapnd : (K.map Prod.snd).Nodup := by
    apply hnd.map_on
    intro x hx y hy hxy
    exact Prod.ext (by rw [hfst x hx, hfst y hy]) hxy
  have hsub : (K.map Prod.snd).toFinset ⊆ names.toFinset := by
    intro s hs
    rw [List.mem_toFinset] at hs ⊢
    obtain ⟨k, hk, rfl⟩ := List.mem_map.mp hs
    exact hsnd k hk
  have h1 : (K.map Prod.snd).toFinset.card = K.length := by
    rw [List.toFinset_card_of_nodup hmapnd, List.length_map]
  have h2 := Finset.card_le_card hsub
  have h3 := names.toFinset_card_le
  omega

theorem sumPct_eq_keys (cls : List ClassRow) (bg : String) :
    sumPctBeforeDrop cls bg
      = (((aggKeys cls).filter (fun k => decide (k.1 = bg))).map
          (fun k => pct (keyCount cls k) (groupTotal cls bg))).sum := by
  unfold sumPctBeforeDrop withPct aggregated
  rw [List.map_map, List.filter_map, List.map_map]
  show (((aggKeys cls).filter (fun k => decide (k.1 = bg))).map
      (fun k => pct (keyCount cls k) (groupTotal cls k.1))).sum = _
  apply congrArg
  apply List.map_congr_left
  intro k hk
  rw [List.mem_filter] at hk
  have h1 : k.1 = bg := by simpa using hk.2
  rw [h1]

theorem groupTotal_eq_keys (cls : List ClassRow) (bg : String) :
    groupTotal cls bg
      = (((aggKeys cls).filter (fun k => decide (k.1 = bg))).map
          (fun k => keyCount cls k)).sum := by
  unfold groupTotal aggregated
  rw [List.filter_map, List.map_map]
  rfl

theorem aggKeys_snd_mem (rows : List RawRow) (k : String × String)
    (hk : k ∈ aggKeys (classifyRows rows)) : k.2 ∈ locationGroupNames := by
  rw [aggKeys, List.mem_dedup, List.mem_map] at hk
  obtain ⟨r, hr, rfl⟩ := hk
  have hr2 : r ∈ classifyRows rows := List.mem_of_mem_filter hr
  rw [classifyRows, List.mem_map] at hr2
  obtain ⟨raw, hraw, rfl⟩ := hr2
  exact group_locations_mem_names _

/-- C3 amended: for every input table and building group whose total
incident count is positive, the rounded percentages over all of that
group's location groups (Other Room/External included, before the drop
step) sum to 100 within 0.2 — each of the at most four location-group
percentages carries a half-to-even rounding error of at most 0.05, and the
0.1 tolerance of the original claim is attained and exceeded at exact
ties. -/
theorem c3_amended_sum_bound (rows : List RawRow) (bg : String)
    (hT : 0 < groupTotal (classifyRows rows) bg) :
    |sumPctBeforeDrop (classifyRows rows) bg - 100| ≤ 1/5 := by
  have hT0 : ((groupTotal (classifyRows rows) bg : ℕ) : ℚ) ≠ 0 :=
    Nat.cast_ne_zero.mpr (Nat.pos_iff_ne_zero.mp hT)
  have hsum := sumPct_eq_keys (classifyRows rows) bg
  -- the exact (unrounded) percentages sum to exactly 100
  have hcast : (((aggKeys (classifyRows rows)).filter
        (fun k => decide (k.1 = bg))).map
      (fun k => ((keyCount (classifyRows rows) k : ℕ) : ℚ))).sum
      = ((groupTotal (classifyRows rows) bg : ℕ) : ℚ) := by
    rw [groupTotal_eq_keys, Nat.cast_list_sum, List.map_map]
    rfl
  have hexact : (((aggKeys (classifyRows rows)).filter
        (fun k => decide (k.1 = bg))).map
      (fun k => (100 * (keyCount (classifyRows rows) k : ℚ))
        / ((groupTotal (classifyRows rows) bg : ℕ) : ℚ))).sum = 100 := by
    have hfun : (fun k : String × String =>
        (100 * (keyCount (classifyRows rows) k : ℚ))
          / ((groupTotal (classifyRows rows) bg : ℕ) : ℚ))
        = fun k => (100 / ((groupTotal (classifyRows rows) bg : ℕ) : ℚ))
            * ((keyCount (classifyRows rows) k : ℕ) : ℚ) := by
      funext k
      ring
    rw [hfun, List.sum_map_mul_left, hcast]
    field_simp
  -- each rounded percentage is within 1/20 of the exact one
  have herr : ∀ k ∈ (aggKeys (classifyRows rows)).filter
      (fun k => decide (k.1 = bg)),
      |pct (keyCount (classifyRows rows) k) (groupTotal (classifyRows rows) bg)
        - (100 * (keyCount (classifyRows rows) k : ℚ))
          / ((groupTotal (classifyRows rows) bg : ℕ) : ℚ)| ≤ 1/20 := by
    intro k _
    exact abs_round1_sub_le _
  have hbound := list_sum_abs_sub_le _ _ _ _ herr
  -- at most the four location groups occur as keys of one building group
  have hlen : ((aggKeys (classifyRows rows)).filter
      (fun k => decide (k.1 = bg))).length ≤ 4 := by
    have h4 := nodup_snd_length_le
      ((aggKeys (classifyRows rows)).filter (fun k => decide (k.1 = bg)))
      locationGroupNames bg
      ((List.nodup_dedup _).filter _)
      (fun k hk => by simpa using (List.mem_filter.mp hk).2)
      (fun k hk => aggKeys_snd_mem rows k (List.mem_of_mem_filter hk))
    simpa [locationGroupNames] using h4
  rw [hsum, ← hexact]
  refine le_trans hbound ?_
  have hlenq : (((aggKeys (classifyRows rows)).filter
      (fun k => decide (k.1 = bg))).length : ℚ) ≤ 4 := by
    exact_mod_cast hlen
  nlinarith [hlenq]

/-- Witness for the amended C3 at the example input: the House group has
positive total, so its pre-drop percentages sum to 100 within 0.2. -/
theorem c3_amended_sum_bound_witness :
    |sumPctBeforeDrop (classifyRows c4Rows) "House" - 100| ≤ 1/5 :=
  c3_amended_sum_bound c4Rows "House" (by decide)

/-- C7: two consecutive gateway calls with the same query text return
equal tables, and the underlying store is executed at most once more than
before for that text — the second call is served from the cache keyed by
exact query text. -/
theorem c7_gateway_two_calls {α : Type} (store : String → α)
    (s0 : GatewayState α) (q : String) :
    (gateway_execute store s0 q).1
      = (gateway_execute store (gateway_execute store s0 q).2 q).1
    ∧ (gateway_execute store (gateway_execute store s0 q).2 q).2.storeExecs.count q
        ≤ s0.storeExecs.count q + 1 := by
  cases hl : cacheLookup s0.cache q with
  | some t =>
    constructor
    · simp [gateway_execute, hl]
    · simp [gateway_execute, hl]
  | none =>
    have hl2 : cacheLookup ((q, store q) :: s0.cache) q = some (store q) := by
      simp [cacheLookup, List.find?]
    constructor
    · simp [gateway_execute, hl, hl2]
    · simp [gateway_execute, hl, hl2, List.count_append]

/-- C9: the load_data connection scope — an open failure or a query
failure is returned to the caller unchanged (no retry: the query runs at
most once), a success is returned as the table, and on every exit path
each opened connection is closed before the call returns. -/
theorem c9_load_data_scoped_connection {α : Type} (o : Except String Unit)
    (run : String → Except String α) (q : String) :
    ((load_data_conn o run q).2.count ConnEvent.opened
        = (load_data_conn o run q).2.count ConnEvent.closed)
    ∧ ((load_data_conn o run q).2.count (ConnEvent.executed q) ≤ 1)
    ∧ (∀ e, o = .error e → (load_data_conn o run q).1 = .error e)
    ∧ (∀ e, o = .ok () → run q = .error e →
        (load_data_conn o run q).1 = .error e)
    ∧ (∀ t, o = .ok () → run q = .ok t →
        (load_data_conn o run q).1 = .ok t) := by
  cases o with
  | error e => simp [load_data_conn]
  | ok u =>
    cases u
    cases hr : run q with
    | ok t => simp [load_data_conn, hr, List.count_cons, List.count_nil]
    | error e => simp [load_data_conn, hr, List.count_cons, List.count_nil]

/-- Witness for C9: a failed open and a failed query each surface their
error to the caller. -/
theorem c9_load_data_scoped_connection_witness :
    (load_data_conn (α := ℕ) (.error "DataUnavailable: cannot open store")
        (fun _ => .ok 5) "SELECT 1").1
      = .error "DataUnavailable: cannot open store"
    ∧ (load_data_conn (α := ℕ) (.ok ())
        (fun _ => .error "DataUnavailable: invalid query") "SELECT 1").1
      = .error "DataUnavailable: invalid query" :=
  ⟨(c9_load_data_scoped_connection (.error "DataUnavailable: cannot open store")
      (fun _ => .ok 5) "SELECT 1").2.2.1 "DataUnavailable: cannot open store" rfl,
   (c9_load_data_scoped_connection (.ok ())
      (fun _ => .error "DataUnavailable: invalid query") "SELECT 1").2.2.2.1
      "DataUnavailable: invalid query" rfl rfl⟩

theorem human_cost_causes_map (db : HCDB) :
    (sql_human_cost_result db).map (fun r => r.cause_of_fire)
      = (hcCauses db).filter (fun c => decide (100 < hcCount db c)) := by
  unfold sql_human_cost_result
  rw [List.map_map]
  show ((hcCauses db).filter (fun c => decide (100 < hcCount db c))).map (fun c => c)
    = (hcCauses db).filter (fun c => decide (100 < hcCount db c))
  exact List.map_id _

set_option maxRecDepth 100000 in
/-- C8: a cause appears in the human-cost query result exactly when it has
strictly more than 100 qualifying rows (the HAVING COUNT > 100 clause over
the WHERE-filtered join); in particular, in a snapshot where one cause has
101 qualifying rows and another 99, only the first is output. -/
theorem c8_human_cost_having :
    (∀ (db : HCDB) (c : String),
      c ∈ (sql_human_cost_result db).map (fun r => r.cause_of_fire)
        ↔ 100 < (hcGroup db c).length)
    ∧ hcCount hcExampleDB "Cooking" = 101
    ∧ hcCount hcExampleDB "Arson" = 99
    ∧ (sql_human_cost_result hcExampleDB).map (fun r => r.cause_of_fire)
        = ["Cooking"] := by
  refine ⟨?_, by decide, by decide, ?_⟩
  · intro db c
    rw [human_cost_causes_map, List.mem_filter]
    constructor
    · rintro ⟨-, h⟩
      simpa [hcCount] using h
    · intro h
      refine ⟨?_, by simpa [hcCount] using h⟩
      have hpos : 0 < (hcGroup db c).length := lt_trans (by norm_num) h
      rw [List.length_pos] at hpos
      obtain ⟨r, hr⟩ := List.exists_mem_of_ne_nil _ hpos
      unfold hcGroup at hr
      rw [List.mem_filter] at hr
      unfold hcCauses
      rw [List.mem_dedup, List.mem_map]
      exact ⟨r, hr.1, by simpa using hr.2⟩
  · rw [human_cost_causes_map]
    decide

theorem except_error_bind {ε α β : Type} (e : ε) (g : α → Except ε β) :
    (Except.error e >>= g) = Except.error e := rfl

theorem except_ok_bind {ε α β : Type} (a : α) (g : α → Except ε β) :
    (Except.ok a >>= g) = g a := rfl

theorem except_isOk_ok {ε α : Type} (a : α) :
    (Except.ok a : Except ε α).isOk = true := rfl

theorem except_isOk_error {ε α : Type} (e : ε) :
    (Except.error e : Except ε α).isOk = false := rfl

theorem except_mapM_isOk {ε α β : Type} (f : α → Except ε β) (l : List α) :
    (l.mapM f).isOk = true ↔ ∀ a ∈ l, (f a).isOk = true := by
  induction l with
  | nil =>
    constructor
    · intro _ a ha
      exact absurd ha (List.not_mem_nil a)
    · intro _
      rfl
  | cons a t ih =>
    rw [List.mapM_cons]
    cases hfa : f a with
    | error e =>
      rw [except_error_bind]
      constructor
      · intro h
        exact absurd h (by simp [except_isOk_error])
      · intro h
        have := h a (List.mem_cons_self a t)
        rw [hfa] at this
        exact absurd this (by simp [except_isOk_error])
    | ok b =>
      rw [except_ok_bind]
      cases hmt : t.mapM f with
      | error e2 =>
        rw [except_error_bind]
        rw [hmt] at ih
        constructor
        · intro h
          exact absurd h (by simp [except_isOk_error])
        · intro h
          have h2 := ih.mpr (fun x hx => h x (List.mem_cons_of_mem a hx))
          exact absurd h2 (by simp [except_isOk_error])
      | ok bs =>
        rw [except_ok_bind]
        constructor
        · intro _ x hx
          rcases List.mem_cons.mp hx with rfl | hx2
          · rw [hfa]
            rfl
          · rw [hmt] at ih
            exact (ih.mp rfl) x hx2
        · intro _
          rfl

theorem group_locations_py_isOk (v : PyVal) :
    (group_locations_py v).isOk = true := by
  cases v with
  | str s =>
    unfold group_locations_py
    split_ifs <;> rfl
  | none => rfl

theorem group_buildings_py_isOk_iff (v : PyVal) :
    (group_buildings_py v).isOk = true ↔ v.isStr = true := by
  cases v with
  | none => decide
  | str s =>
    have hstr : (PyVal.str s).isStr = true := rfl
    rw [hstr]
    simp only [iff_true]
    unfold group_buildings_py
    split_ifs with h
    · rfl
    · simp only [py_startswith]
      cases str_startswith s ("Purpose Built") <;> rfl

theorem transform_py_isOk_of_mapM (rows : List PyRow) :
    (transform_py rows).isOk = true
      ↔ (rows.mapM (fun r => group_buildings_py r.dwelling_type)).isOk = true := by
  unfold transform_py
  cases hb : rows.mapM (fun r => group_buildings_py r.dwelling_type) with
  | error e =>
    rw [except_error_bind]
    exact Iff.rfl
  | ok bgs =>
    rw [except_ok_bind]
    have hg : (rows.mapM (fun r => group_locations_py r.fire_start_location)).isOk
        = true :=
      (except_mapM_isOk _ _).mpr (fun r _ => group_locations_py_isOk _)
    cases hl : rows.mapM (fun r => group_locations_py r.fire_start_location) with
    | error e2 =>
      rw [hl] at hg
      exact absurd hg (by simp [except_isOk_error])
    | ok lgs =>
      rw [except_ok_bind]
      exact Iff.rfl

/-- C10 counterexample: a table whose location value is null (and whose
dwelling type is a string) runs through the transform without raising, so
the transform is not crash-free *only* when every location value is a
string — null locations simply fall into Other Room/External. -/
theorem c10_none_location_counterexample :
    (transform_py c10CexRows).isOk = true
    ∧ c10CexRows.all
        (fun r => r.dwelling_type.isStr && r.fire_start_location.isStr) = false :=
  ⟨rfl, rfl⟩

/-- C10 amended: the building-group classifier raises AttributeError on a
null value instead of returning Other, but the location classifier sends
null to Other Room/External without raising; hence the transform is
crash-free exactly when every dwelling-type value is a string (location
values are unconstrained), and the fire-start-locations query's
IS NOT NULL filters guarantee that both columns are strings. -/
theorem c10_amended_string_precondition :
    group_buildings_py PyVal.none = Except.error PyErr.attributeError
    ∧ group_locations_py PyVal.none = Except.ok "Other Room/External"
    ∧ (∀ rows : List PyRow,
        (transform_py rows).isOk = true ↔ ∀ r ∈ rows, r.dwelling_type.isStr = true)
    ∧ (∀ db : LocDB,
        (∀ r ∈ sql_locations_result_py db,
          r.dwelling_type.isStr = true ∧ r.fire_start_location.isStr = true)
        ∧ (transform_py (sql_locations_result_py db)).isOk = true) := by
  refine ⟨rfl, rfl, ?_, ?_⟩
  · intro rows
    rw [transform_py_isOk_of_mapM, except_mapM_isOk]
    constructor
    · intro h r hr
      exact (group_buildings_py_isOk_iff _).mp (h r hr)
    · intro h r hr
      exact (group_buildings_py_isOk_iff _).mpr (h r hr)
  · intro db
    have hstr : ∀ r ∈ sql_locations_result_py db,
        r.dwelling_type.isStr = true ∧ r.fire_start_location.isStr = true := by
      intro r hr
      rw [sql_locations_result_py, List.mem_map] at hr
      obtain ⟨k, hk, rfl⟩ := hr
      exact ⟨rfl, rfl⟩
    refine ⟨hstr, ?_⟩
    rw [transform_py_isOk_of_mapM, except_mapM_isOk]
    intro r hr
    exact (group_buildings_py_isOk_iff _).mpr (hstr r hr).1

/-- Witness for the amended C10: a concrete all-string table is processed
without raising, via the crash-freedom criterion. -/
theorem c10_amended_string_precondition_witness :
    (transform_py [⟨PyVal.str "House - single occupancy", PyVal.str "Kitchen", 3⟩]).isOk
      = true :=
  (c10_amended_string_precondition.2.2.1
    [⟨PyVal.str "House - single occupancy", PyVal.str "Kitchen", 3⟩]).mpr
    (by decide)

set_option maxRecDepth 100000 in
/-- Witness for C8 at the example snapshot: the cause with 101 qualifying
rows is in the output, via the HAVING characterization. -/
theorem c8_human_cost_having_witness :
    "Cooking" ∈ (sql_human_cost_result hcExampleDB).map (fun r => r.cause_of_fire) :=
  (c8_human_cost_having.1 hcExampleDB "Cooking").mpr (by decide)
